import Mathlib

/-!
Verification development for the Investigation Case Manager backend
(`src/main.py`, `src/schemas.py`): a FastAPI service storing Case and
Evidence documents in a MongoDB-style document store.

Embedding conventions:
  * The document store (`db` / the `database` module, which is not part of
    `src/`) is modelled as an explicit `DB` value threaded through the
    handlers; mutating handlers return the new `DB` alongside their result.
  * Native identifiers (`bson.ObjectId`) are modelled as their canonical
    24-character lowercase-hex string; `ObjectId(s)` parsing is
    `to_native_id`, failing on strings that are not 24 hex characters.
  * Python `HTTPException` / pydantic validation failures become `Except`
    values over the error taxonomy `ApiError`.
  * `Optional[T]` request fields become `Option T`; pydantic
    `model_dump(exclude_none=True)` drops `none` fields, so `none` models
    both an absent field and an explicit null.
-/

/-- Error taxonomy of the service (spec section 7): validation failures,
missing entities, malformed identifier strings, and store unavailability. -/
inductive ApiError where
  | validationError
  | invalidIdentifier
  | notFound
  | storeUnavailable
deriving DecidableEq, Repr

/-- A hexadecimal digit, upper or lower case, as accepted by
`bson.ObjectId` for a 24-character id string. -/
def isHexChar (c : Char) : Bool :=
  c.isDigit || (decide ('a' ≤ c) && decide (c ≤ 'f'))
    || (decide ('A' ≤ c) && decide (c ≤ 'F'))

/-- Syntactic validity of a public id string: `ObjectId(s)` succeeds on a
string exactly when it has 24 hexadecimal characters. -/
def isValidObjectId (s : String) : Bool :=
  s.length == 24 && s.data.all isHexChar

/-- Canonical form of a hex id string: `str(ObjectId(s))` is lowercase.
Each character is lowercased (`String.map Char.toLower`, written over the
character list). -/
def normalizeHex (s : String) : String := ⟨s.data.map Char.toLower⟩

/-- `ObjectId(case_id)`: parse a public id string to its native identifier
(canonical lowercase hex), failing with `InvalidId` on a malformed string.
The failure surfaces as `ApiError.invalidIdentifier` in the handlers. -/
def to_native_id (s : String) : Option String :=
  if isValidObjectId s then some (normalizeHex s) else none

/-- A stored document of the `"case"` collection (schema `Case` in
`src/schemas.py` plus the store-assigned `_id`). -/
structure CaseDoc where
  oid : String
  username : String
  allegations : Option String
  reporter_name : Option String
  reporter_contact : Option String
  status : String
  risk_score : Option Int
  notes : Option String
deriving DecidableEq, Repr

/-- A stored document of the `"evidence"` collection (schema `Evidence` in
`src/schemas.py` plus the store-assigned `_id`). `case_id` is the public
string form of the parent case id, stored as given by the client. -/
structure EvidenceDoc where
  oid : String
  case_id : String
  type : String
  url : Option String
  description : Option String
deriving DecidableEq, Repr

/-- The document store: the two collections the service uses. -/
structure DB where
  cases : List CaseDoc
  evidence : List EvidenceDoc
deriving DecidableEq, Repr

/-- `db["case"].find_one({"_id": nid})`: first stored case whose native id
equals `nid`, if any. -/
def find_one_case (db : DB) (nid : String) : Option CaseDoc :=
  db.cases.find? (fun d => d.oid == nid)

/-- A case record as returned to the client: `as_str_id` has replaced the
native `_id` by the public string field `id`. -/
structure CaseOut where
  id : String
  username : String
  allegations : Option String
  reporter_name : Option String
  reporter_contact : Option String
  status : String
  risk_score : Option Int
  notes : Option String
deriving DecidableEq, Repr

/-- An evidence record as returned to the client (`as_str_id` applied). -/
structure EvidenceOut where
  id : String
  case_id : String
  type : String
  url : Option String
  description : Option String
deriving DecidableEq, Repr

/-- `as_str_id` on a case document: pops `_id` and adds `id = str(_id)`;
on canonical ids `str` is the identity. -/
def as_str_id (d : CaseDoc) : CaseOut :=
  ⟨d.oid, d.username, d.allegations, d.reporter_name, d.reporter_contact,
    d.status, d.risk_score, d.notes⟩

/-- `as_str_id` on an evidence document. -/
def as_str_id_evidence (d : EvidenceDoc) : EvidenceOut :=
  ⟨d.oid, d.case_id, d.type, d.url, d.description⟩

/-- Handler `GET /api/cases/{case_id}` (`get_case`, src/main.py lines
109-116), on a reachable store: parse the id (`ObjectId` raises on a
malformed string), look the document up, 404 when absent, otherwise return
it with the public id substituted. -/
def get_case (db : DB) (case_id : String) : Except ApiError CaseOut :=
  match to_native_id case_id with
  | none => .error .invalidIdentifier
  | some nid =>
    match find_one_case db nid with
    | none => .error .notFound
    | some doc => .ok (as_str_id doc)

/-- The `risk_score` constraint of `Field(None, ge=0, le=100)`, shared by
the `Case` schema (src/schemas.py line 29) and the `CaseUpdate` request
model (src/main.py line 41): absent is fine, a present value must lie in
[0, 100]. -/
def risk_score_ok (r : Option Int) : Bool :=
  match r with
  | none => true
  | some v => decide (0 ≤ v) && decide (v ≤ 100)

/-- A validated `Case` record (schema `Case`, src/schemas.py lines 19-30):
`status` defaulted to `"open"` when unset. -/
structure Case where
  username : String
  allegations : Option String
  reporter_name : Option String
  reporter_contact : Option String
  status : String
  risk_score : Option Int
  notes : Option String
deriving DecidableEq, Repr

/-- Raw field mapping handed to the `Case` schema before validation. -/
structure CaseRaw where
  username : String
  allegations : Option String := none
  reporter_name : Option String := none
  reporter_contact : Option String := none
  status : Option String := none
  risk_score : Option Int := none
  notes : Option String := none
deriving DecidableEq, Repr

/-- Pydantic construction `Case(**fields)`: applies the `"open"` default
for an unset `status`, rejects a `risk_score` outside [0, 100] with a
`ValidationError`. No other field carries a constraint. -/
def mkCase (raw : CaseRaw) : Except ApiError Case :=
  if risk_score_ok raw.risk_score then
    .ok ⟨raw.username, raw.allegations, raw.reporter_name,
      raw.reporter_contact, raw.status.getD "open", raw.risk_score, raw.notes⟩
  else .error .validationError

/-- Request model `CaseCreate` (src/main.py lines 32-36): only `username`
is required; it accepts no `status`, `risk_score` or `notes` field. -/
structure CaseCreate where
  username : String
  allegations : Option String := none
  reporter_name : Option String := none
  reporter_contact : Option String := none
deriving DecidableEq, Repr

/-- Request model `CaseUpdate` (src/main.py lines 38-41), already past
pydantic validation; `none` fields are those `model_dump(exclude_none=True)`
drops. -/
structure CaseUpdate where
  status : Option String := none
  notes : Option String := none
  risk_score : Option Int := none
deriving DecidableEq, Repr

/-- Pydantic validation of a `CaseUpdate` body: rejects a `risk_score`
outside [0, 100] (`Field(None, ge=0, le=100)`), accepts everything else. -/
def mkCaseUpdate (status notes : Option String) (risk_score : Option Int) :
    Except ApiError CaseUpdate :=
  if risk_score_ok risk_score then .ok ⟨status, notes, risk_score⟩
  else .error .validationError

/-- Request model `EvidenceCreate` (src/main.py lines 43-47). -/
structure EvidenceCreate where
  case_id : String
  type : String
  url : Option String := none
  description : Option String := none
deriving DecidableEq, Repr

/-- Modelled from the spec: `insert(collectionName, record) -> nativeId`
of the persistence gateway (`create_document` of the `database` module,
which is not under `src/`): persists the validated record under a fresh
native id and returns that id's public string form. The fresh id is
passed explicitly; freshness and canonicity are hypotheses where needed. -/
def create_document_case (db : DB) (freshId : String) (data : Case) :
    DB × String :=
  ({ db with cases := db.cases ++
      [⟨freshId, data.username, data.allegations, data.reporter_name,
        data.reporter_contact, data.status, data.risk_score, data.notes⟩] },
    freshId)

/-- Modelled from the spec: `insert` for the `"evidence"` collection. -/
def create_document_evidence (db : DB) (freshId : String)
    (data : EvidenceCreate) : DB × String :=
  ({ db with evidence := db.evidence ++
      [⟨freshId, data.case_id, data.type, data.url, data.description⟩] },
    freshId)

/-- Handler `POST /api/cases` (`create_case`, src/main.py lines 93-97):
validate the payload through the `Case` schema (which fills in
`status = "open"`), insert, return the public id. -/
def create_case (db : DB) (payload : CaseCreate) (freshId : String) :
    DB × Except ApiError String :=
  match mkCase { username := payload.username,
                 allegations := payload.allegations,
                 reporter_name := payload.reporter_name,
                 reporter_contact := payload.reporter_contact } with
  | .error e => (db, .error e)
  | .ok data =>
    let r := create_document_case db freshId data
    (r.1, .ok r.2)

/-- An exact-match filter over the `"case"` collection: a field is matched
only when present in the mapping. -/
structure CaseFilter where
  username : Option String
  status : Option String
deriving DecidableEq, Repr

/-- Python truthiness of an optional string: `if username:` holds exactly
when the value is present and non-empty. -/
def truthyStr (v : Option String) : Option String :=
  match v with
  | none => none
  | some s => if s == "" then none else some s

/-- The filter mapping `filter_q` built by `list_cases` (src/main.py lines
101-105): a key is added only when the query parameter is truthy. -/
def build_case_filter (username status : Option String) : CaseFilter :=
  ⟨truthyStr username, truthyStr status⟩

/-- The filter mapping the specification's words describe for `list_cases`:
it contains exactly the filters the client provided, with only absent ones
omitted. Stated for comparison with `build_case_filter`. -/
def build_case_filter_spec (username status : Option String) : CaseFilter :=
  ⟨username, status⟩

/-- Whether a stored case matches an exact-match filter mapping. -/
def matchesCaseFilter (f : CaseFilter) (d : CaseDoc) : Bool :=
  (match f.username with | none => true | some v => d.username == v) &&
  (match f.status with | none => true | some v => d.status == v)

/-- Modelled from the spec: `findMany(collectionName, filter, limit)` of
the persistence gateway (`get_documents` of the `database` module, which is
not under `src/`): the records matching every field of the exact-match
filter, capped at `limit` results. -/
def get_documents_case (db : DB) (f : CaseFilter) (limit : Nat) :
    List CaseDoc :=
  (db.cases.filter (fun d => matchesCaseFilter f d)).take limit

/-- Modelled from the spec: `findMany` over the `"evidence"` collection
with the one-field exact-match filter the handler builds. -/
def get_documents_evidence (db : DB) (case_id : String) (limit : Nat) :
    List EvidenceDoc :=
  (db.evidence.filter (fun e => e.case_id == case_id)).take limit

/-- Handler `GET /api/cases` (`list_cases`, src/main.py lines 99-107):
`limit` is the query parameter, `none` when not supplied (FastAPI default
50). -/
def list_cases (db : DB) (username status : Option String)
    (limit : Option Nat) : List CaseOut :=
  (get_documents_case db (build_case_filter username status)
      (limit.getD 50)).map as_str_id

/-- Whether the update body carries any field after
`model_dump(exclude_none=True)`: Python `if not updates`. -/
def hasUpdates (u : CaseUpdate) : Bool :=
  u.status.isSome || u.notes.isSome || u.risk_score.isSome

/-- MongoDB `$set` on one case document: merges exactly the present fields
of the update into the record, leaving every other field untouched. -/
def applySet (d : CaseDoc) (u : CaseUpdate) : CaseDoc :=
  { d with
    status := match u.status with | some v => v | none => d.status,
    notes := match u.notes with | some v => some v | none => d.notes,
    risk_score := match u.risk_score with
      | some v => some v
      | none => d.risk_score }

/-- `db["case"].update_one({"_id": nid}, {"$set": updates})`: merges the
given fields into the matching record and reports `matched_count`
(0 or 1, the spec's `updateFields` contract). -/
def update_one_case (db : DB) (nid : String) (u : CaseUpdate) : DB × Nat :=
  if db.cases.any (fun d => d.oid == nid) then
    ({ db with cases := db.cases.map (fun d => if d.oid == nid then applySet d u else d) }, 1)
  else (db, 0)

/-- Handler `PATCH /api/cases/{case_id}` (`update_case`, src/main.py lines
118-128), on a reachable store: an empty update returns
`{updated: false}` before the id is even parsed; otherwise the id is
parsed (`ObjectId` raises on a malformed string), the present fields are
`$set`, and `matched_count = 0` yields a 404. -/
def update_case (db : DB) (case_id : String) (payload : CaseUpdate) :
    DB × Except ApiError Bool :=
  if hasUpdates payload then
    match to_native_id case_id with
    | none => (db, .error .invalidIdentifier)
    | some nid =>
      let r := update_one_case db nid payload
      if r.2 == 0 then (db, .error .notFound) else (r.1, .ok true)
  else (db, .ok false)

/-- Handler `POST /api/evidence` (`add_evidence`, src/main.py lines
131-141), on a reachable store: parse `case_id` (`ObjectId` raises on a
malformed string), 404 when no such case exists, otherwise validate the
payload through the `Evidence` schema (string fields only, nothing to
reject) and insert. -/
def add_evidence (db : DB) (payload : EvidenceCreate) (freshId : String) :
    DB × Except ApiError String :=
  match to_native_id payload.case_id with
  | none => (db, .error .invalidIdentifier)
  | some nid =>
    match find_one_case db nid with
    | none => (db, .error .notFound)
    | some _ =>
      let r := create_document_evidence db freshId payload
      (r.1, .ok r.2)

/-- Handler `GET /api/cases/{case_id}/evidence` (`list_evidence`,
src/main.py lines 143-146): the public id string is used directly as the
stored `case_id` filter value, with no translation to native form; `limit`
is `none` when not supplied (FastAPI default 200). -/
def list_evidence (db : DB) (case_id : String) (limit : Option Nat) :
    List EvidenceOut :=
  (get_documents_evidence db case_id (limit.getD 200)).map as_str_id_evidence

/-- Response model `PublicProfileResponse` (src/main.py lines 149-154). -/
structure PublicProfileResponse where
  username : String
  full_name : Option String
  bio : Option String
  external_url : Option String
  is_private : Option Bool
deriving DecidableEq, Repr

/-- Handler `GET /api/lookup/{username}` (`public_lookup`, src/main.py
lines 156-166): a placeholder that touches no stored data. -/
def public_lookup (username : String) : PublicProfileResponse :=
  ⟨username, none, none, none, some true⟩

/-! Concrete sample data used by witnesses and counterexamples. -/

/-- A canonical 24-character lowercase hex id. -/
def oidA : String := "0123456789abcdef01234567"

/-- A second canonical id, distinct from `oidA`. -/
def oidB : String := "0123456789abcdef01234568"

/-- A stored case for the subject `"alice"`. -/
def caseA : CaseDoc := ⟨oidA, "alice", none, none, none, "open", none, none⟩

/-- A store holding exactly the case `caseA` and no evidence. -/
def dbA : DB := ⟨[caseA], []⟩

/-- C9: for every username string, the public lookup endpoint succeeds
without error and returns exactly the fixed placeholder record: the echoed
username, `is_private = true`, and `full_name`, `bio`, `external_url` all
null. It takes no store argument at all, so it never consults case data. -/
theorem C9_public_lookup_placeholder (username : String) :
    public_lookup username = ⟨username, none, none, none, some true⟩ := rfl

/-- C10: in case listing, a `username` or `status` filter supplied as the
empty string is treated identically to an absent filter: Python truthiness
omits it from the store query, so the listing result is unchanged. -/
theorem C10_empty_string_filter_ignored (db : DB) (username status : Option String)
    (limit : Option Nat) :
    list_cases db (some "") status limit = list_cases db none status limit ∧
    list_cases db username (some "") limit = list_cases db username none limit ∧
    build_case_filter (some "") status = build_case_filter none status ∧
    build_case_filter username (some "") = build_case_filter username none :=
  ⟨rfl, rfl, rfl, rfl⟩

/-- C8: a `risk_score` of 101 or -1 is rejected with a validation error,
and 0 or 100 is accepted, both by the `Case` schema used at creation and
by the `CaseUpdate` request model. -/
theorem C8_risk_score_boundaries :
    mkCase { username := "u", risk_score := some 101 } = .error .validationError ∧
    mkCase { username := "u", risk_score := some (-1) } = .error .validationError ∧
    mkCase { username := "u", risk_score := some 0 } =
      .ok ⟨"u", none, none, none, "open", some 0, none⟩ ∧
    mkCase { username := "u", risk_score := some 100 } =
      .ok ⟨"u", none, none, none, "open", some 100, none⟩ ∧
    mkCaseUpdate none none (some 101) = .error .validationError ∧
    mkCaseUpdate none none (some (-1)) = .error .validationError ∧
    mkCaseUpdate none none (some 0) = .ok ⟨none, none, some 0⟩ ∧
    mkCaseUpdate none none (some 100) = .ok ⟨none, none, some 100⟩ :=
  ⟨rfl, rfl, rfl, rfl, rfl, rfl, rfl, rfl⟩

/-- C1: getting a case by public id fails `InvalidIdentifier` on a
syntactically invalid id string, fails `NotFound` on a well-formed id
matching no stored document, and otherwise returns the first matching
stored record with its native identifier replaced by the public `id`
field. -/
theorem C1_get_case_contract (db : DB) (case_id : String) :
    (isValidObjectId case_id = false →
      get_case db case_id = .error .invalidIdentifier) ∧
    (isValidObjectId case_id = true →
      (∀ d ∈ db.cases, d.oid ≠ normalizeHex case_id) →
      get_case db case_id = .error .notFound) ∧
    (isValidObjectId case_id = true →
      ∀ d, find_one_case db (normalizeHex case_id) = some d →
        get_case db case_id = .ok (as_str_id d) ∧ d ∈ db.cases ∧
          d.oid = normalizeHex case_id ∧ (as_str_id d).id = d.oid) := by
  refine ⟨fun hbad => ?_, fun hok hno => ?_, fun hok d hfind => ?_⟩
  · simp [get_case, to_native_id, hbad]
  · have hnone : find_one_case db (normalizeHex case_id) = none := by
      simp only [find_one_case, List.find?_eq_none]
      intro d hd
      simpa using hno d hd
    simp [get_case, to_native_id, hok, hnone]
  · refine ⟨?_, List.mem_of_find?_eq_some hfind, ?_, rfl⟩
    · simp [get_case, to_native_id, hok, find_one_case] at hfind ⊢
      simp [find_one_case, hfind]
    · have := List.find?_some hfind
      simpa using this

/-- Witness for C1: all three branches of the get-case contract at
concrete inputs on the store `dbA`. -/
theorem C1_get_case_contract_witness :
    get_case dbA "not-an-id" = .error .invalidIdentifier ∧
    get_case dbA oidB = .error .notFound ∧
    get_case dbA oidA = .ok (as_str_id caseA) :=
  ⟨(C1_get_case_contract dbA "not-an-id").1 (by decide),
   (C1_get_case_contract dbA oidB).2.1 (by decide) (by decide),
   ((C1_get_case_contract dbA oidA).2.2 (by decide) caseA (by decide)).1⟩

/-- Counterexample for C2: an evidence payload whose `case_id` `"zz"`
resolves to no case because it is not even a well-formed identifier fails
with `InvalidIdentifier` (the `ObjectId` parse error), not with `NotFound`
as the claim states. No insert happens either way. -/
theorem C2_add_evidence_counterexample :
    add_evidence dbA ⟨"zz", "screenshot", none, none⟩ oidB =
      (dbA, .error .invalidIdentifier) ∧
    (Except.error ApiError.invalidIdentifier : Except ApiError String) ≠
      .error .notFound :=
  ⟨rfl, fun h => ApiError.noConfusion (Except.error.inj h)⟩

/-- C2 amended: an evidence-creation request with a malformed `case_id`
fails `InvalidIdentifier`, one with a well-formed `case_id` matching no
case fails `NotFound`; in both failure cases the store is unchanged (no
insert). When the case exists, the validated record is appended to the
evidence collection and its public id returned. -/
theorem C2_add_evidence_amended (db : DB) (p : EvidenceCreate) (freshId : String) :
    (isValidObjectId p.case_id = false →
      add_evidence db p freshId = (db, .error .invalidIdentifier)) ∧
    (isValidObjectId p.case_id = true →
      (∀ d ∈ db.cases, d.oid ≠ normalizeHex p.case_id) →
      add_evidence db p freshId = (db, .error .notFound)) ∧
    (isValidObjectId p.case_id = true →
      (∃ d ∈ db.cases, d.oid = normalizeHex p.case_id) →
      add_evidence db p freshId =
        ({ db with evidence := db.evidence ++
            [⟨freshId, p.case_id, p.type, p.url, p.description⟩] },
          .ok freshId)) := by
  refine ⟨fun hbad => ?_, fun hok hno => ?_, fun hok hex => ?_⟩
  · simp [add_evidence, to_native_id, hbad]
  · have hnone : find_one_case db (normalizeHex p.case_id) = none := by
      simp only [find_one_case, List.find?_eq_none]
      intro d hd
      simpa using hno d hd
    simp [add_evidence, to_native_id, hok, hnone]
  · have hsome : (db.cases.find? (fun d => d.oid == normalizeHex p.case_id)).isSome = true := by
      rw [List.find?_isSome]
      obtain ⟨d, hd, he⟩ := hex
      exact ⟨d, hd, by simpa using he⟩
    obtain ⟨d, hd⟩ := Option.isSome_iff_exists.mp hsome
    simp [add_evidence, to_native_id, hok, find_one_case, hd,
      create_document_evidence]

/-- Witness for C2's amended theorem: all three branches at concrete
inputs on the store `dbA`. -/
theorem C2_add_evidence_amended_witness :
    add_evidence dbA ⟨"not-an-id", "link", none, none⟩ oidB =
      (dbA, .error .invalidIdentifier) ∧
    add_evidence dbA ⟨oidB, "link", none, none⟩ oidB =
      (dbA, .error .notFound) ∧
    add_evidence dbA ⟨oidA, "link", none, none⟩ oidB =
      ({ dbA with evidence := dbA.evidence ++
          [⟨oidB, oidA, "link", none, none⟩] }, .ok oidB) :=
  ⟨(C2_add_evidence_amended dbA ⟨"not-an-id", "link", none, none⟩ oidB).1 (by decide),
   (C2_add_evidence_amended dbA ⟨oidB, "link", none, none⟩ oidB).2.1
     (by decide) (by decide),
   (C2_add_evidence_amended dbA ⟨oidA, "link", none, none⟩ oidB).2.2
     (by decide) ⟨caseA, by decide, by decide⟩⟩

/-- C3: a case-update request with no updatable fields returns
`{updated: false}` and leaves the store untouched, before the id is even
parsed; with fields supplied and a well-formed id matching no document it
fails `NotFound`; with fields supplied and a matching document it returns
`{updated: true}`. -/
theorem C3_update_case_contract (db : DB) (case_id : String) (u : CaseUpdate) :
    (hasUpdates u = false → update_case db case_id u = (db, .ok false)) ∧
    (hasUpdates u = true → isValidObjectId case_id = true →
      (∀ d ∈ db.cases, d.oid ≠ normalizeHex case_id) →
      update_case db case_id u = (db, .error .notFound)) ∧
    (hasUpdates u = true → isValidObjectId case_id = true →
      (∃ d ∈ db.cases, d.oid = normalizeHex case_id) →
      (update_case db case_id u).2 = .ok true) := by
  refine ⟨fun hno => ?_, fun hyes hok hnone => ?_, fun hyes hok hex => ?_⟩
  · simp [update_case, hno]
  · have hany : db.cases.any (fun d => d.oid == normalizeHex case_id) = false := by
      rw [List.any_eq_false]
      intro d hd
      simpa using hnone d hd
    simp [update_case, hyes, to_native_id, hok, update_one_case, hany]
  · have hany : db.cases.any (fun d => d.oid == normalizeHex case_id) = true := by
      rw [List.any_eq_true]
      obtain ⟨d, hd, he⟩ := hex
      exact ⟨d, hd, by simpa using he⟩
    simp [update_case, hyes, to_native_id, hok, update_one_case, hany]

/-- Witness for C3: all three branches of the update contract at concrete
inputs on the store `dbA`. -/
theorem C3_update_case_contract_witness :
    update_case dbA oidA ⟨none, none, none⟩ = (dbA, .ok false) ∧
    update_case dbA oidB ⟨some "closed", none, none⟩ =
      (dbA, .error .notFound) ∧
    (update_case dbA oidA ⟨some "closed", none, none⟩).2 = .ok true :=
  ⟨(C3_update_case_contract dbA oidA ⟨none, none, none⟩).1 (by decide),
   (C3_update_case_contract dbA oidB ⟨some "closed", none, none⟩).2.1
     (by decide) (by decide) (by decide),
   (C3_update_case_contract dbA oidA ⟨some "closed", none, none⟩).2.2
     (by decide) (by decide) ⟨caseA, by decide, by decide⟩⟩

/-- C4: a successful partial update changes no field it was not asked to
change: the case collection keeps its length and order, every record keeps
its identity and non-updatable fields, and any of `status`, `notes`,
`risk_score` absent from the update body is unchanged; the evidence
collection is untouched. -/
theorem C4_partial_update_frame (db : DB) (case_id : String) (u : CaseUpdate)
    (db2 : DB) (h : update_case db case_id u = (db2, .ok true)) :
    List.Forall₂ (fun d d2 : CaseDoc =>
      d2.oid = d.oid ∧ d2.username = d.username ∧
      d2.allegations = d.allegations ∧
      d2.reporter_name = d.reporter_name ∧
      d2.reporter_contact = d.reporter_contact ∧
      (u.status = none → d2.status = d.status) ∧
      (u.notes = none → d2.notes = d.notes) ∧
      (u.risk_score = none → d2.risk_score = d.risk_score))
      db.cases db2.cases ∧
    db2.evidence = db.evidence := by
  by_cases hu : hasUpdates u = true
  · simp only [update_case, hu, if_true] at h
    cases hv : to_native_id case_id with
    | none => rw [hv] at h; exact absurd (congrArg Prod.snd h) (by simp)
    | some nid =>
      rw [hv] at h
      by_cases hany : db.cases.any (fun d => d.oid == nid) = true
      · simp only [update_one_case, hany, if_true] at h
        have h1 : ({ db with cases := db.cases.map (fun d => if d.oid == nid then applySet d u else d) } : DB) = db2 :=
          congrArg Prod.fst h
        subst h1
        refine ⟨?_, rfl⟩
        rw [List.forall₂_map_right_iff, List.forall₂_same]
        intro d _
        by_cases hd : (d.oid == nid) = true
        · simp only [hd, if_true]
          refine ⟨?_, rfl, rfl, rfl, rfl, fun hs => ?_, fun hn => ?_, fun hr => ?_⟩
          · simp [applySet]
          · simp [applySet, hs]
          · simp [applySet, hn]
          · simp [applySet, hr]
        · simp only [hd, if_false]
          exact ⟨rfl, rfl, rfl, rfl, rfl, fun _ => rfl, fun _ => rfl, fun _ => rfl⟩
      · rw [Bool.not_eq_true] at hany
        simp only [update_one_case, hany, if_false] at h
        exact absurd (congrArg Prod.snd h) (by simp)
  · rw [Bool.not_eq_true] at hu
    simp only [update_case, hu, if_false] at h
    exact absurd (congrArg Prod.snd h) (by simp)

/-- The store after updating only the notes of `caseA`. -/
def dbA_notes : DB :=
  ⟨[⟨oidA, "alice", none, none, none, "open", none, some "checked"⟩], []⟩

/-- Witness for C4: updating only `notes` on `dbA` leaves identity,
`username`, `status` and `risk_score` of the stored case unchanged. -/
theorem C4_partial_update_frame_witness :
    List.Forall₂ (fun d d2 : CaseDoc =>
      d2.oid = d.oid ∧ d2.username = d.username ∧
      d2.allegations = d.allegations ∧
      d2.reporter_name = d.reporter_name ∧
      d2.reporter_contact = d.reporter_contact ∧
      ((⟨none, some "checked", none⟩ : CaseUpdate).status = none → d2.status = d.status) ∧
      ((⟨none, some "checked", none⟩ : CaseUpdate).notes = none → d2.notes = d.notes) ∧
      ((⟨none, some "checked", none⟩ : CaseUpdate).risk_score = none → d2.risk_score = d.risk_score))
      dbA.cases dbA_notes.cases ∧
    dbA_notes.evidence = dbA.evidence :=
  C4_partial_update_frame dbA oidA ⟨none, some "checked", none⟩ dbA_notes rfl

/-- C5: creating a case from any valid payload under a fresh canonical
store id and then getting that id returns a record echoing the payload's
`username` with `status = "open"`; the `CaseCreate` request model has no
`status` field, so the schema default always applies. -/
theorem C5_create_then_get (db : DB) (p : CaseCreate) (freshId : String)
    (hvalid : isValidObjectId freshId = true)
    (hcanon : normalizeHex freshId = freshId)
    (hfresh : ∀ d ∈ db.cases, d.oid ≠ freshId) :
    ∃ db2, create_case db p freshId = (db2, .ok freshId) ∧
      ∃ out, get_case db2 freshId = .ok out ∧
        out.username = p.username ∧ out.status = "open" ∧ out.id = freshId := by
  refine ⟨{ db with cases := db.cases ++
      [⟨freshId, p.username, p.allegations, p.reporter_name,
        p.reporter_contact, "open", none, none⟩] }, ?_, ?_⟩
  · simp [create_case, mkCase, risk_score_ok, create_document_case]
  · refine ⟨⟨freshId, p.username, p.allegations, p.reporter_name,
      p.reporter_contact, "open", none, none⟩, ?_, rfl, rfl, rfl⟩
    have h1 : db.cases.find? (fun d => d.oid == freshId) = none := by
      rw [List.find?_eq_none]
      intro d hd
      simpa using hfresh d hd
    simp [get_case, to_native_id, hvalid, hcanon, find_one_case,
      List.find?_append, h1, List.find?, as_str_id]

/-- Witness for C5: creating a case for `"bob"` in `dbA` under the fresh
id `oidB` and reading it back. -/
theorem C5_create_then_get_witness :
    ∃ db2, create_case dbA ⟨"bob", none, none, none⟩ oidB = (db2, .ok oidB) ∧
      ∃ out, get_case db2 oidB = .ok out ∧
        out.username = "bob" ∧ out.status = "open" ∧ out.id = oidB :=
  C5_create_then_get dbA ⟨"bob", none, none, none⟩ oidB
    (by decide) (by decide) (by decide)

/-- Counterexample for C6: a `username` filter supplied as the empty
string is dropped by Python truthiness, so the store filter does not
contain exactly the provided filters: the filter the claim describes
matches no record of `dbA`, while the code's listing still returns
`caseA`. -/
theorem C6_list_cases_counterexample :
    build_case_filter (some "") none ≠ build_case_filter_spec (some "") none ∧
    (get_documents_case dbA (build_case_filter_spec (some "") none) 50).map as_str_id = [] ∧
    list_cases dbA (some "") none none = [as_str_id caseA] := by
  refine ⟨by decide, rfl, rfl⟩

/-- C6 amended: the store filter contains exactly the non-empty filters
the client provided among `username` and `status` (absent or empty-string
filters are omitted, not matched against their default values), the limit
defaults to 50 when not supplied, and each returned record is a stored
case with its native identifier replaced by the public `id` field. -/
theorem C6_list_cases_amended (db : DB) (username status : Option String)
    (limit : Option Nat) :
    (∀ v, username = some v → v ≠ "" →
      (build_case_filter username status).username = some v) ∧
    (∀ v, status = some v → v ≠ "" →
      (build_case_filter username status).status = some v) ∧
    (username = none ∨ username = some "" →
      (build_case_filter username status).username = none) ∧
    (status = none ∨ status = some "" →
      (build_case_filter username status).status = none) ∧
    list_cases db username status none =
      (get_documents_case db (build_case_filter username status) 50).map as_str_id ∧
    (∀ out ∈ list_cases db username status limit,
      ∃ d ∈ db.cases, out = as_str_id d ∧ out.id = d.oid) := by
  refine ⟨?_, ?_, ?_, ?_, rfl, ?_⟩
  · rintro v rfl hv
    have hb : (v == "") = false := by simpa using hv
    simp [build_case_filter, truthyStr, hb]
  · rintro v rfl hv
    have hb : (v == "") = false := by simpa using hv
    simp [build_case_filter, truthyStr, hb]
  · rintro (rfl | rfl) <;> simp [build_case_filter, truthyStr]
  · rintro (rfl | rfl) <;> simp [build_case_filter, truthyStr]
  · intro out hout
    obtain ⟨d, hd, rfl⟩ := List.mem_map.mp hout
    have hd1 := List.mem_of_mem_take hd
    exact ⟨d, (List.mem_filter.mp hd1).1, rfl, rfl⟩

/-- Witness for C6's amended theorem: each conjunct instantiated on `dbA`
with a provided filter `"alice"`, an empty-string filter, and an absent
filter. -/
theorem C6_list_cases_amended_witness :
    (build_case_filter (some "alice") (some "")).username = some "alice" ∧
    (build_case_filter (some "") (some "open")).status = some "open" ∧
    (build_case_filter none (some "open")).username = none ∧
    (build_case_filter (some "alice") (some "")).status = none ∧
    list_cases dbA (some "alice") none none =
      (get_documents_case dbA (build_case_filter (some "alice") none) 50).map as_str_id ∧
    ∃ d ∈ dbA.cases, as_str_id caseA = as_str_id d ∧ (as_str_id caseA).id = d.oid :=
  ⟨(C6_list_cases_amended dbA (some "alice") (some "") none).1 "alice" rfl (by decide),
   (C6_list_cases_amended dbA (some "") (some "open") none).2.1 "open" rfl (by decide),
   (C6_list_cases_amended dbA none (some "open") none).2.2.1 (Or.inl rfl),
   (C6_list_cases_amended dbA (some "alice") (some "") none).2.2.2.1 (Or.inr rfl),
   (C6_list_cases_amended dbA (some "alice") none none).2.2.2.2.1,
   (C6_list_cases_amended dbA (some "alice") none none).2.2.2.2.2
     (as_str_id caseA) (by decide)⟩

/-- C7: evidence listing filters by string equality of the stored
`case_id` against the queried public id exactly as given (no translation
to native form, so this holds for arbitrary id strings): every returned
record carries the queried `case_id`, at most `limit` records are
returned, every stored evidence record of the case is returned whenever
the matches fit in the limit, and the limit defaults to 200. -/
theorem C7_list_evidence_contract (db : DB) (case_id : String)
    (limit : Option Nat) :
    (∀ out ∈ list_evidence db case_id limit, out.case_id = case_id) ∧
    (list_evidence db case_id limit).length ≤ limit.getD 200 ∧
    ((db.evidence.filter (fun e => e.case_id == case_id)).length ≤ limit.getD 200 →
      ∀ e ∈ db.evidence, e.case_id = case_id →
        as_str_id_evidence e ∈ list_evidence db case_id limit) ∧
    list_evidence db case_id none = list_evidence db case_id (some 200) := by
  refine ⟨?_, ?_, ?_, rfl⟩
  · intro out hout
    obtain ⟨e, he, rfl⟩ := List.mem_map.mp hout
    have := (List.mem_filter.mp (List.mem_of_mem_take he)).2
    simpa [as_str_id_evidence] using this
  · simp only [list_evidence, get_documents_evidence, List.length_map,
      List.length_take]
    exact min_le_left _ _
  · intro hle e he heq
    simp only [list_evidence, get_documents_evidence,
      List.take_of_length_le hle]
    exact List.mem_map.mpr ⟨e, List.mem_filter.mpr ⟨he, by simpa using heq⟩, rfl⟩

/-- A store with evidence for two different cases, one of which uses a
non-ObjectId public id string. -/
def dbEv : DB :=
  ⟨[], [⟨oidB, "A", "screenshot", none, none⟩,
        ⟨oidA, "other", "link", none, none⟩]⟩

/-- Witness for C7 on `dbEv`, querying the non-ObjectId case id `"A"`:
only its record comes back, within the default limit. -/
theorem C7_list_evidence_contract_witness :
    (∀ out ∈ list_evidence dbEv "A" none, out.case_id = "A") ∧
    (list_evidence dbEv "A" none).length ≤ 200 ∧
    as_str_id_evidence ⟨oidB, "A", "screenshot", none, none⟩ ∈
      list_evidence dbEv "A" none :=
  ⟨(C7_list_evidence_contract dbEv "A" none).1,
   (C7_list_evidence_contract dbEv "A" none).2.1,
   (C7_list_evidence_contract dbEv "A" none).2.2.1 (by decide)
     ⟨oidB, "A", "screenshot", none, none⟩ (by decide) rfl⟩
